import Mathlib

/-!
Verification of the eblitui loader/dispatcher protocol.

The repository's source (src/libretro/libretro.h) is a declaration-only
interface: constant identifiers, data layouts and callback signatures.
The data model below is embedded directly from that header.  The
protocol components (Core Lifecycle Controller, Environment Dispatcher,
AV Negotiator, Capability Registry, Runtime Loop Driver) have no
implementation under src/, so they are modelled from the specification;
each such definition carries a doc comment saying so.
-/

namespace Eblitui

/-! ## Constants embedded from src/libretro/libretro.h -/

def RETRO_API_VERSION : Nat := 1

def RETRO_ENVIRONMENT_SET_PIXEL_FORMAT : Nat := 10

def RETRO_ENVIRONMENT_GET_VARIABLE : Nat := 15

def RETRO_ENVIRONMENT_SET_VARIABLES : Nat := 16

def RETRO_ENVIRONMENT_GET_VARIABLE_UPDATE : Nat := 17

def RETRO_ENVIRONMENT_SET_GEOMETRY : Nat := 37

/-- Embedded from `enum retro_pixel_format` (three variants, values 0, 1, 2). -/
inductive retro_pixel_format
  | RETRO_PIXEL_FORMAT_0RGB1555
  | RETRO_PIXEL_FORMAT_XRGB8888
  | RETRO_PIXEL_FORMAT_RGB565
deriving DecidableEq

/-- Embedded from `struct retro_system_info`. -/
structure retro_system_info where
  library_name : String
  library_version : String
  valid_extensions : String
  need_fullpath : Bool
  block_extract : Bool
deriving DecidableEq

/-- Embedded from `struct retro_game_geometry`; `unsigned` fields become `Nat`,
the `float` aspect-ratio field becomes `Rat` (its value is only carried, never
computed with). -/
structure retro_game_geometry where
  base_width : Nat
  base_height : Nat
  max_width : Nat
  max_height : Nat
  aspect_ratio : Rat
deriving DecidableEq

/-- Embedded from `struct retro_system_timing`; `double` fields become `Rat`. -/
structure retro_system_timing where
  fps : Rat
  sample_rate : Rat
deriving DecidableEq

/-- Embedded from `struct retro_system_av_info`. -/
structure retro_system_av_info where
  geometry : retro_game_geometry
  timing : retro_system_timing
deriving DecidableEq

/-- Embedded from `struct retro_variable` (a key/value pair of strings). -/
structure retro_variable where
  key : String
  value : String
deriving DecidableEq

/-- Embedded from `struct retro_game_info`; the borrowed byte buffer becomes an
optional list of bytes. -/
structure retro_game_info where
  path : Option String
  data : Option (List Nat)
  size : Nat
  meta : Option String
deriving DecidableEq

/-! ## Capability Registry (spec §2, §4.2) -/

/-- Modelled from the spec: the Capability Registry stores the key/default
pairs a core has declared, the host-selected override values, and a dirty
flag signalling that a value changed since the core last checked. -/
structure CapabilityRegistry where
  defaults : List (String × String)
  overrides : List (String × String)
  dirty : Bool
deriving DecidableEq

/-- Association-list lookup used by the registry model. -/
def lookupVal : List (String × String) → String → Option String
  | [], _ => none
  | (k0, v0) :: rest, k => if k0 = k then some v0 else lookupVal rest k

/-- Association-list insert-or-replace used by the registry model. -/
def setVal : List (String × String) → String → String → List (String × String)
  | [], k, v => [(k, v)]
  | (k0, v0) :: rest, k, v =>
      if k0 = k then (k0, v) :: rest else (k0, v0) :: setVal rest k v

/-- Modelled from the spec: SET_VARIABLES bulk registration — idempotent
re-registration overwrites defaults but never touches host-set overrides. -/
def registerVariables (reg : CapabilityRegistry)
    (vars : List (String × String)) : CapabilityRegistry :=
  { reg with defaults := vars.foldl (fun d kv => setVal d kv.1 kv.2) reg.defaults }

/-- Modelled from the spec: GET_VARIABLE lookup — a host-set override wins
over the registered default. -/
def getVariable (reg : CapabilityRegistry) (k : String) : Option String :=
  match lookupVal reg.overrides k with
  | some v => some v
  | none => lookupVal reg.defaults k

/-- Modelled from the spec: the host updates a variable out-of-band, which
records an override and raises the dirty flag. -/
def hostSetVariable (reg : CapabilityRegistry) (k v : String) : CapabilityRegistry :=
  { reg with overrides := setVal reg.overrides k v, dirty := true }

/-! ## Core Lifecycle Controller (spec §4.1) -/

/-- Modelled from the spec: lifecycle states of the Core Lifecycle Controller,
`Unloaded → Loaded → Initialized → Running → Deinitialized → Unloaded`. -/
inductive LifecycleState
  | Unloaded
  | Loaded
  | Initialized
  | Running
  | Deinitialized
deriving DecidableEq

/-- Modelled from the spec: the error taxonomy of §7. -/
inductive ProtocolError
  | LoadError
  | InitError
  | GeometryOutOfBounds
  | NotInitialized
  | AlreadyUnloaded
deriving DecidableEq

/-- Modelled from the spec: the session object owning all per-core state
(design note §9): lifecycle phase, a flag for being inside the core's init
call, whether a video-refresh callback has occurred yet, the negotiated
pixel format and AV info, the Capability Registry, and a frame counter. -/
structure Session where
  phase : LifecycleState
  duringInit : Bool
  videoSeen : Bool
  systemInfo : Option retro_system_info
  pixelFormat : Option retro_pixel_format
  avInfo : Option retro_system_av_info
  registry : CapabilityRegistry
  framesRun : Nat
deriving DecidableEq

/-- Modelled from the spec: a freshly created session, before any core is
loaded. -/
def freshSession : Session :=
  { phase := .Unloaded
    duringInit := false
    videoSeen := false
    systemInfo := none
    pixelFormat := none
    avInfo := none
    registry := ⟨[], [], false⟩
    framesRun := 0 }

/-- Modelled from the spec: a core handle as yielded by the dynamic-loading
primitive; each flag records whether the corresponding entry point (init,
deinit, run-one-frame, set-callbacks) resolves. -/
structure CoreEntryPoints where
  has_init : Bool
  has_deinit : Bool
  has_run : Bool
  has_set_callbacks : Bool
deriving DecidableEq

/-- Result of a lifecycle operation: an optional error together with the
session state after the call (unchanged when an error is reported). -/
structure LcResult where
  err : Option ProtocolError
  state : Session
deriving DecidableEq

/-- Modelled from the spec: `load()` resolves the four entry points and
SystemInfo; it fails with `LoadError` if any entry point is missing, leaving
the session state untouched. -/
def load (s : Session) (core : CoreEntryPoints) (info : retro_system_info) : LcResult :=
  if core.has_init && core.has_deinit && core.has_run && core.has_set_callbacks then
    ⟨none, { s with phase := .Loaded, systemInfo := some info }⟩
  else
    ⟨some .LoadError, s⟩

/-- Modelled from the spec: `init(GameInfo)` transitions Loaded→Initialized and
captures the initial AV info; fails with `InitError` if the core rejects the
content. Whether the core accepts and the AV info it reports are core-specific
business logic, passed in as parameters. -/
def initCore (s : Session) (_game : retro_game_info) (coreAccepts : Bool)
    (av : retro_system_av_info) : LcResult :=
  if s.phase = .Loaded then
    if coreAccepts then
      ⟨none, { s with phase := .Initialized, avInfo := some av }⟩
    else
      ⟨some .InitError, s⟩
  else
    ⟨some .NotInitialized, s⟩

/-- Modelled from the spec: `runFrame()` is valid only in Initialized/Running
and drives exactly one frame; it fails with `NotInitialized` outside those
states, leaving the session untouched. -/
def runFrame (s : Session) : LcResult :=
  if s.phase = .Initialized || s.phase = .Running then
    ⟨none, { s with phase := .Running, framesRun := s.framesRun + 1 }⟩
  else
    ⟨some .NotInitialized, s⟩

/-! ## Environment Dispatcher (spec §4.2) -/

/-- Modelled from the spec: the dispatcher's payloads as a tagged union
(design note §9: the `void*` payload is decoded once at the boundary). -/
inductive EnvPayload
  | pixelFormatArg (fmt : retro_pixel_format)
  | variableKey (key : String)
  | variableList (vars : List (String × String))
  | unitArg
  | geometryArg (g : retro_game_geometry)
deriving DecidableEq

/-- Result of an environment call: the boolean protocol answer, an optional
string answer (GET_VARIABLE), and the session state after the call. -/
structure HandleResult where
  ok : Bool
  out : Option String
  state : Session
deriving DecidableEq

/-- Modelled from the spec: the set of command ids in the dispatch table —
exactly the five `RETRO_ENVIRONMENT_*` ids declared in the header. -/
def knownCmd (cmd : Nat) : Bool :=
  cmd = RETRO_ENVIRONMENT_SET_PIXEL_FORMAT ||
  cmd = RETRO_ENVIRONMENT_GET_VARIABLE ||
  cmd = RETRO_ENVIRONMENT_SET_VARIABLES ||
  cmd = RETRO_ENVIRONMENT_GET_VARIABLE_UPDATE ||
  cmd = RETRO_ENVIRONMENT_SET_GEOMETRY

/-- The phases in which the core may issue environment calls that read or
update negotiated state "after init". -/
def afterInit (s : Session) : Bool :=
  s.phase = .Initialized || s.phase = .Running

/-- Modelled from the spec: the allowed lifecycle phases declared by each
dispatch-table entry: SET_PIXEL_FORMAT only before the first video callback,
SET_VARIABLES only during init, GET_VARIABLE and SET_GEOMETRY any time after
init, GET_VARIABLE_UPDATE unrestricted. -/
def phaseAllowed (cmd : Nat) (s : Session) : Bool :=
  if cmd = RETRO_ENVIRONMENT_SET_PIXEL_FORMAT then !s.videoSeen
  else if cmd = RETRO_ENVIRONMENT_GET_VARIABLE then afterInit s
  else if cmd = RETRO_ENVIRONMENT_SET_VARIABLES then s.duringInit
  else if cmd = RETRO_ENVIRONMENT_GET_VARIABLE_UPDATE then true
  else if cmd = RETRO_ENVIRONMENT_SET_GEOMETRY then afterInit s
  else false

/-- Modelled from the spec: the expected payload shape declared by each
dispatch-table entry. -/
def payloadMatches (cmd : Nat) (p : EnvPayload) : Bool :=
  if cmd = RETRO_ENVIRONMENT_SET_PIXEL_FORMAT then
    match p with | .pixelFormatArg _ => true | _ => false
  else if cmd = RETRO_ENVIRONMENT_GET_VARIABLE then
    match p with | .variableKey _ => true | _ => false
  else if cmd = RETRO_ENVIRONMENT_SET_VARIABLES then
    match p with | .variableList _ => true | _ => false
  else if cmd = RETRO_ENVIRONMENT_GET_VARIABLE_UPDATE then
    match p with | .unitArg => true | _ => false
  else if cmd = RETRO_ENVIRONMENT_SET_GEOMETRY then
    match p with | .geometryArg _ => true | _ => false
  else false

/-- Modelled from the spec: each command's effect function on the AV
Negotiator / Capability Registry (§4.2).  Keyed by the decoded payload, which
the `payloadMatches` guard in `handle` ties one-to-one to the command id:
  - SET_PIXEL_FORMAT writes PixelFormat once (already set → soft-fail);
  - GET_VARIABLE answers from the registry, or signals "not found";
  - SET_VARIABLES bulk-registers key/default pairs;
  - GET_VARIABLE_UPDATE returns and clears the registry's dirty flag;
  - SET_GEOMETRY bounds-checks new base dimensions against the maxima
    recorded at AV-info creation (GeometryOutOfBounds → soft-fail, prior
    geometry retained) and updates Geometry without touching Timing. -/
def effect (s : Session) (p : EnvPayload) : HandleResult :=
  match p with
  | .pixelFormatArg fmt =>
      match s.pixelFormat with
      | some _ => ⟨false, none, s⟩
      | none => ⟨true, none, { s with pixelFormat := some fmt }⟩
  | .variableKey k =>
      match getVariable s.registry k with
      | some v => ⟨true, some v, s⟩
      | none => ⟨false, none, s⟩
  | .variableList vars =>
      ⟨true, none, { s with registry := registerVariables s.registry vars }⟩
  | .unitArg =>
      ⟨s.registry.dirty, none, { s with registry := { s.registry with dirty := false } }⟩
  | .geometryArg g =>
      match s.avInfo with
      | some av =>
          if g.base_width ≤ av.geometry.max_width && g.base_height ≤ av.geometry.max_height then
            ⟨true, none,
              { s with avInfo := some { av with geometry :=
                { av.geometry with
                    base_width := g.base_width
                    base_height := g.base_height
                    aspect_ratio := g.aspect_ratio } } }⟩
          else ⟨false, none, s⟩
      | none => ⟨false, none, s⟩

/-- Modelled from the spec: the dispatcher's single operation
`handle(commandId, payload) -> bool`.  Unknown command ids, recognized
commands outside their allowed phase, and payload-shape mismatches all
soft-fail with `false` and leave the state unchanged. -/
def handle (s : Session) (cmd : Nat) (p : EnvPayload) : HandleResult :=
  if knownCmd cmd && phaseAllowed cmd s && payloadMatches cmd p then
    effect s p
  else
    ⟨false, none, s⟩

/-! ## Runtime Loop Driver (spec §4.4) -/

/-- Modelled from the spec: the arguments of one input-state query
(port, device, index, id). -/
structure InputQuery where
  port : Nat
  device : Nat
  index : Nat
  id : Nat
deriving DecidableEq

/-- Observable input events of one frame: the single input-poll call and the
input-state queries the core issues, each with the value it received. -/
inductive FrameEvent
  | poll
  | query (q : InputQuery) (result : Int)
deriving DecidableEq

/-- Whether a frame event is the input-poll call. -/
def isPoll : FrameEvent → Bool
  | .poll => true
  | .query _ _ => false

/-- Modelled from the spec: the Runtime Loop Driver's input handling for one
`runFrame` invocation — it calls input-poll exactly once, snapshotting the
input source, then answers every input-state query of the frame from that
snapshot.  `input` is the snapshot taken at the poll; `qs` are the queries
the core chooses to issue during its frame step. -/
def frameTrace (input : InputQuery → Int) (qs : List InputQuery) : List FrameEvent :=
  FrameEvent.poll :: qs.map (fun q => FrameEvent.query q (input q))

/-! ## Concrete values used by the witnesses -/

/-- A concrete session whose pixel format is already negotiated (RGB565). -/
def sessionWithFormat : Session :=
  { freshSession with pixelFormat := some .RETRO_PIXEL_FORMAT_RGB565 }

/-- A concrete AV info with recorded maxima 800×600, as in the spec's
geometry scenario. -/
def avInfo800x600 : retro_system_av_info :=
  ⟨⟨640, 480, 800, 600, 1⟩, ⟨60, 44100⟩⟩

/-- A concrete initialized session holding `avInfo800x600`. -/
def sessionInit800x600 : Session :=
  { freshSession with
      phase := .Initialized
      avInfo := some avInfo800x600 }

/-- A concrete session inside the core's init call (the only phase in which
SET_VARIABLES is allowed), already transitioned to Initialized. -/
def sessionDuringInit : Session :=
  { freshSession with
      phase := .Initialized
      duringInit := true }

/-- The session of the idempotence scenario after the first registration of
"c_region" with default "ntsc". -/
def sessionAfterFirstRegistration : Session :=
  (handle sessionDuringInit RETRO_ENVIRONMENT_SET_VARIABLES
    (.variableList [("c_region", "ntsc")])).state

/-- The session of the idempotence scenario after the host overrides
"c_region" to "pal". -/
def sessionAfterHostOverride : Session :=
  { sessionAfterFirstRegistration with
      registry := hostSetVariable sessionAfterFirstRegistration.registry
        "c_region" "pal" }

/-- The session of the idempotence scenario after re-registering "c_region"
with the different default "auto". -/
def sessionAfterReRegistration : Session :=
  (handle sessionAfterHostOverride RETRO_ENVIRONMENT_SET_VARIABLES
    (.variableList [("c_region", "auto")])).state

/-! ## Helper lemmas -/

/-- Looking a key up right after inserting it yields the inserted value. -/
theorem lookupVal_setVal_self (l : List (String × String)) (k v : String) :
    lookupVal (setVal l k v) k = some v := by
  induction l with
  | nil => simp [setVal, lookupVal]
  | cons hd tl ih =>
      by_cases h : hd.1 = k
      · simp [setVal, lookupVal, h]
      · simp [setVal, lookupVal, h, ih]

/-- Bulk registration never touches the host-set overrides. -/
theorem registerVariables_overrides (reg : CapabilityRegistry)
    (vars : List (String × String)) :
    (registerVariables reg vars).overrides = reg.overrides := rfl

/-! ## Claim theorems -/

/-- C10: the five environment command identifiers recognized by the dispatcher
(SET_PIXEL_FORMAT = 10, GET_VARIABLE = 15, SET_VARIABLES = 16,
GET_VARIABLE_UPDATE = 17, SET_GEOMETRY = 37) are pairwise distinct, so every
`handle` call matches at most one dispatch-table entry. -/
theorem env_command_ids_distinct :
    RETRO_ENVIRONMENT_SET_PIXEL_FORMAT = 10 ∧
    RETRO_ENVIRONMENT_GET_VARIABLE = 15 ∧
    RETRO_ENVIRONMENT_SET_VARIABLES = 16 ∧
    RETRO_ENVIRONMENT_GET_VARIABLE_UPDATE = 17 ∧
    RETRO_ENVIRONMENT_SET_GEOMETRY = 37 ∧
    [RETRO_ENVIRONMENT_SET_PIXEL_FORMAT, RETRO_ENVIRONMENT_GET_VARIABLE,
     RETRO_ENVIRONMENT_SET_VARIABLES, RETRO_ENVIRONMENT_GET_VARIABLE_UPDATE,
     RETRO_ENVIRONMENT_SET_GEOMETRY].Nodup := by
  decide

/-- C9: GET_VARIABLE_UPDATE answers with the registry's current dirty flag and
clears it, leaving defaults and overrides untouched; a second call with no
intervening change reports no update. -/
theorem get_variable_update_clears_dirty (s : Session) :
    (handle s RETRO_ENVIRONMENT_GET_VARIABLE_UPDATE .unitArg).ok = s.registry.dirty ∧
    (handle s RETRO_ENVIRONMENT_GET_VARIABLE_UPDATE .unitArg).state.registry.dirty = false ∧
    (handle s RETRO_ENVIRONMENT_GET_VARIABLE_UPDATE .unitArg).state.registry.defaults
      = s.registry.defaults ∧
    (handle s RETRO_ENVIRONMENT_GET_VARIABLE_UPDATE .unitArg).state.registry.overrides
      = s.registry.overrides ∧
    (handle (handle s RETRO_ENVIRONMENT_GET_VARIABLE_UPDATE .unitArg).state
        RETRO_ENVIRONMENT_GET_VARIABLE_UPDATE .unitArg).ok = false := by
  simp [handle, knownCmd, phaseAllowed, payloadMatches, effect,
    RETRO_ENVIRONMENT_SET_PIXEL_FORMAT, RETRO_ENVIRONMENT_GET_VARIABLE,
    RETRO_ENVIRONMENT_SET_VARIABLES, RETRO_ENVIRONMENT_GET_VARIABLE_UPDATE,
    RETRO_ENVIRONMENT_SET_GEOMETRY]

/-- C3: a `handle` call with an unknown command id returns `false` and changes
no state; a recognized command invoked outside its allowed phase likewise
returns `false` and changes no state.  Neither outcome is an error value. -/
theorem handle_soft_fail (s : Session) (cmd : Nat) (p : EnvPayload)
    (h : knownCmd cmd = false ∨ phaseAllowed cmd s = false) :
    handle s cmd p = ⟨false, none, s⟩ := by
  unfold handle
  rcases h with h | h <;> simp [h]

/-- Witness for C3, at the two concrete failure modes: command id 99 is not in
the dispatch table, and SET_GEOMETRY is recognized but not allowed in the
Unloaded phase. -/
theorem handle_soft_fail_witness :
    handle freshSession 99 .unitArg = ⟨false, none, freshSession⟩ ∧
    handle freshSession RETRO_ENVIRONMENT_SET_GEOMETRY
        (.geometryArg ⟨320, 240, 640, 480, 0⟩)
      = ⟨false, none, freshSession⟩ :=
  ⟨handle_soft_fail freshSession 99 .unitArg (Or.inl (by decide)),
   handle_soft_fail freshSession RETRO_ENVIRONMENT_SET_GEOMETRY
     (.geometryArg ⟨320, 240, 640, 480, 0⟩) (Or.inr (by decide))⟩

/-- C7: in every lifecycle state outside Initialized and Running, `runFrame`
fails with NotInitialized, leaves the session unchanged and does not advance
the frame counter. -/
theorem runFrame_not_initialized (s : Session)
    (h1 : s.phase ≠ .Initialized) (h2 : s.phase ≠ .Running) :
    runFrame s = ⟨some .NotInitialized, s⟩ ∧
    (runFrame s).state.framesRun = s.framesRun := by
  simp [runFrame, h1, h2]

/-- Witness for C7: `runFrame` on a fresh (Unloaded, never initialized)
session fails with NotInitialized. -/
theorem runFrame_not_initialized_witness :
    runFrame freshSession = ⟨some .NotInitialized, freshSession⟩ ∧
    (runFrame freshSession).state.framesRun = freshSession.framesRun :=
  runFrame_not_initialized freshSession (by decide) (by decide)

/-- C8: if any of the four entry points (init, deinit, run-one-frame,
set-callbacks) is missing, `load` fails with LoadError and the session is
unchanged — in particular a session in the Unloaded state stays Unloaded. -/
theorem load_missing_entry_point (s : Session) (core : CoreEntryPoints)
    (info : retro_system_info)
    (h : core.has_init = false ∨ core.has_deinit = false ∨
         core.has_run = false ∨ core.has_set_callbacks = false) :
    load s core info = ⟨some .LoadError, s⟩ ∧
    (s.phase = .Unloaded → (load s core info).state.phase = .Unloaded) := by
  unfold load
  rcases h with h | h | h | h <;> simp [h]

/-- Witness for C8: loading a core that lacks the deinit entry point fails
with LoadError and the fresh session stays Unloaded. -/
theorem load_missing_entry_point_witness :
    load freshSession ⟨true, false, true, true⟩ ⟨"c", "1", "bin", false, false⟩
      = ⟨some .LoadError, freshSession⟩ ∧
    (load freshSession ⟨true, false, true, true⟩
        ⟨"c", "1", "bin", false, false⟩).state.phase = .Unloaded := by
  have h := load_missing_entry_point freshSession ⟨true, false, true, true⟩
    ⟨"c", "1", "bin", false, false⟩ (Or.inr (Or.inl rfl))
  exact ⟨h.1, h.2 rfl⟩

/-- C2: once the pixel format has been set, every subsequent SET_PIXEL_FORMAT
call returns `false` and leaves the session (in particular the stored pixel
format) unchanged, whatever the payload and whether or not a video callback
has occurred yet. -/
theorem set_pixel_format_immutable (s : Session) (p : EnvPayload)
    (f : retro_pixel_format) (h : s.pixelFormat = some f) :
    (handle s RETRO_ENVIRONMENT_SET_PIXEL_FORMAT p).ok = false ∧
    (handle s RETRO_ENVIRONMENT_SET_PIXEL_FORMAT p).state = s := by
  cases hv : s.videoSeen <;> cases p <;>
    simp [handle, knownCmd, phaseAllowed, payloadMatches, effect, h, hv,
      RETRO_ENVIRONMENT_SET_PIXEL_FORMAT, RETRO_ENVIRONMENT_GET_VARIABLE,
      RETRO_ENVIRONMENT_SET_VARIABLES, RETRO_ENVIRONMENT_GET_VARIABLE_UPDATE,
      RETRO_ENVIRONMENT_SET_GEOMETRY]

/-- Witness for C2: on a session whose pixel format is already RGB565, a
second SET_PIXEL_FORMAT (asking for XRGB8888) fails and changes nothing. -/
theorem set_pixel_format_immutable_witness :
    (handle sessionWithFormat RETRO_ENVIRONMENT_SET_PIXEL_FORMAT
      (.pixelFormatArg .RETRO_PIXEL_FORMAT_XRGB8888)).ok = false ∧
    (handle sessionWithFormat RETRO_ENVIRONMENT_SET_PIXEL_FORMAT
      (.pixelFormatArg .RETRO_PIXEL_FORMAT_XRGB8888)).state = sessionWithFormat :=
  set_pixel_format_immutable sessionWithFormat
    (.pixelFormatArg .RETRO_PIXEL_FORMAT_XRGB8888)
    .RETRO_PIXEL_FORMAT_RGB565 rfl

/-- C1: after init, SET_GEOMETRY with base dimensions exceeding the recorded
maxima is rejected (`false`, prior session retained unchanged); with base
dimensions within the maxima it succeeds and updates the base dimensions
(and aspect ratio) of the stored geometry. -/
theorem set_geometry_bounds (s : Session) (av : retro_system_av_info)
    (g : retro_game_geometry)
    (hav : s.avInfo = some av) (hph : afterInit s = true) :
    ((av.geometry.max_width < g.base_width ∨ av.geometry.max_height < g.base_height) →
      (handle s RETRO_ENVIRONMENT_SET_GEOMETRY (.geometryArg g)).ok = false ∧
      (handle s RETRO_ENVIRONMENT_SET_GEOMETRY (.geometryArg g)).state = s) ∧
    (g.base_width ≤ av.geometry.max_width → g.base_height ≤ av.geometry.max_height →
      (handle s RETRO_ENVIRONMENT_SET_GEOMETRY (.geometryArg g)).ok = true ∧
      (handle s RETRO_ENVIRONMENT_SET_GEOMETRY (.geometryArg g)).state.avInfo =
        some { av with geometry :=
          { av.geometry with
              base_width := g.base_width
              base_height := g.base_height
              aspect_ratio := g.aspect_ratio } }) := by
  have hcond : (knownCmd RETRO_ENVIRONMENT_SET_GEOMETRY &&
      phaseAllowed RETRO_ENVIRONMENT_SET_GEOMETRY s &&
      payloadMatches RETRO_ENVIRONMENT_SET_GEOMETRY (.geometryArg g)) = true := by
    simp [knownCmd, phaseAllowed, payloadMatches, hph,
      RETRO_ENVIRONMENT_SET_PIXEL_FORMAT, RETRO_ENVIRONMENT_GET_VARIABLE,
      RETRO_ENVIRONMENT_SET_VARIABLES, RETRO_ENVIRONMENT_GET_VARIABLE_UPDATE,
      RETRO_ENVIRONMENT_SET_GEOMETRY]
  constructor
  · intro hgt
    have hb : ¬(g.base_width ≤ av.geometry.max_width ∧
        g.base_height ≤ av.geometry.max_height) := by
      rcases hgt with h | h
      · exact fun hc => absurd hc.1 (Nat.not_le.2 h)
      · exact fun hc => absurd hc.2 (Nat.not_le.2 h)
    simp [handle, hcond, effect, hav, hb]
  · intro h1 h2
    simp [handle, hcond, effect, hav, h1, h2]

/-- Witness for C1, at the spec's own scenario: recorded maxima 800×600;
requesting 1024×768 is rejected with the session retained, while requesting
320×200 succeeds and updates the base dimensions. -/
theorem set_geometry_bounds_witness :
    ((handle sessionInit800x600 RETRO_ENVIRONMENT_SET_GEOMETRY
      (.geometryArg ⟨1024, 768, 800, 600, 1⟩)).ok = false ∧
     (handle sessionInit800x600 RETRO_ENVIRONMENT_SET_GEOMETRY
      (.geometryArg ⟨1024, 768, 800, 600, 1⟩)).state = sessionInit800x600) ∧
    ((handle sessionInit800x600 RETRO_ENVIRONMENT_SET_GEOMETRY
      (.geometryArg ⟨320, 200, 800, 600, 1⟩)).ok = true ∧
     (handle sessionInit800x600 RETRO_ENVIRONMENT_SET_GEOMETRY
      (.geometryArg ⟨320, 200, 800, 600, 1⟩)).state.avInfo
      = some ⟨⟨320, 200, 800, 600, 1⟩, ⟨60, 44100⟩⟩) :=
  ⟨(set_geometry_bounds sessionInit800x600 avInfo800x600 ⟨1024, 768, 800, 600, 1⟩
      rfl rfl).1 (Or.inl (by decide)),
   (set_geometry_bounds sessionInit800x600 avInfo800x600 ⟨320, 200, 800, 600, 1⟩
      rfl rfl).2 (by decide) (by decide)⟩

/-- C4: no environment call — in particular a successful SET_GEOMETRY — ever
alters the Timing part of the stored SystemAVInfo, and `runFrame` leaves the
whole AV info untouched, so the timing captured at init stays fixed for the
session. -/
theorem timing_never_altered (s : Session) (cmd : Nat) (p : EnvPayload) :
    ((handle s cmd p).state.avInfo).map retro_system_av_info.timing
      = s.avInfo.map retro_system_av_info.timing ∧
    (runFrame s).state.avInfo = s.avInfo := by
  constructor
  · unfold handle
    split
    · cases p with
      | pixelFormatArg fmt => cases hpf : s.pixelFormat <;> simp [effect, hpf]
      | variableKey k => cases hgv : getVariable s.registry k <;> simp [effect, hgv]
      | variableList vars => simp [effect]
      | unitArg => simp [effect]
      | geometryArg g =>
          cases hav : s.avInfo with
          | none => simp [effect, hav]
          | some av =>
              cases hb : (decide (g.base_width ≤ av.geometry.max_width) &&
                  decide (g.base_height ≤ av.geometry.max_height)) <;>
                simp [effect, hav, hb]
    · rfl
  · unfold runFrame
    split <;> rfl

/-- C5: registering a key during init, then giving it a host override, then
re-registering the same key with a different default overwrites the stored
default but keeps the override, so GET_VARIABLE still answers with the
host-assigned value. -/
theorem variable_registration_idempotent (s s1 s2 s3 : Session)
    (k d1 d2 v : String)
    (hinit : s.duringInit = true) (hph : afterInit s = true)
    (h1 : s1 = (handle s RETRO_ENVIRONMENT_SET_VARIABLES
      (.variableList [(k, d1)])).state)
    (h2 : s2 = { s1 with registry := hostSetVariable s1.registry k v })
    (h3 : s3 = (handle s2 RETRO_ENVIRONMENT_SET_VARIABLES
      (.variableList [(k, d2)])).state) :
    lookupVal s3.registry.defaults k = some d2 ∧
    getVariable s3.registry k = some v ∧
    (handle s3 RETRO_ENVIRONMENT_GET_VARIABLE (.variableKey k)).ok = true ∧
    (handle s3 RETRO_ENVIRONMENT_GET_VARIABLE (.variableKey k)).out = some v := by
  have e1 : s1 = { s with registry := registerVariables s.registry [(k, d1)] } := by
    rw [h1]
    simp [handle, knownCmd, phaseAllowed, payloadMatches, effect, hinit,
      RETRO_ENVIRONMENT_SET_PIXEL_FORMAT, RETRO_ENVIRONMENT_GET_VARIABLE,
      RETRO_ENVIRONMENT_SET_VARIABLES, RETRO_ENVIRONMENT_GET_VARIABLE_UPDATE,
      RETRO_ENVIRONMENT_SET_GEOMETRY]
  have hinit2 : s2.duringInit = true := by rw [h2, e1]; exact hinit
  have e3 : s3 = { s2 with registry := registerVariables s2.registry [(k, d2)] } := by
    rw [h3]
    simp [handle, knownCmd, phaseAllowed, payloadMatches, effect, hinit2,
      RETRO_ENVIRONMENT_SET_PIXEL_FORMAT, RETRO_ENVIRONMENT_GET_VARIABLE,
      RETRO_ENVIRONMENT_SET_VARIABLES, RETRO_ENVIRONMENT_GET_VARIABLE_UPDATE,
      RETRO_ENVIRONMENT_SET_GEOMETRY]
  have hdef : s3.registry.defaults = setVal (setVal s.registry.defaults k d1) k d2 := by
    rw [e3, h2, e1]
    simp [registerVariables, hostSetVariable]
  have hov : s3.registry.overrides = setVal s.registry.overrides k v := by
    rw [e3, h2, e1]
    simp [registerVariables, hostSetVariable]
  have hlook : lookupVal s3.registry.overrides k = some v := by
    rw [hov]; exact lookupVal_setVal_self _ k v
  have hget : getVariable s3.registry k = some v := by
    unfold getVariable
    rw [hlook]
  refine ⟨?_, hget, ?_, ?_⟩
  · rw [hdef]; exact lookupVal_setVal_self _ k d2
  · have hph3 : afterInit s3 = true := by
      rw [e3, h2, e1]; exact hph
    simp [handle, knownCmd, phaseAllowed, payloadMatches, effect, hph3, hget,
      RETRO_ENVIRONMENT_SET_PIXEL_FORMAT, RETRO_ENVIRONMENT_GET_VARIABLE,
      RETRO_ENVIRONMENT_SET_VARIABLES, RETRO_ENVIRONMENT_GET_VARIABLE_UPDATE,
      RETRO_ENVIRONMENT_SET_GEOMETRY]
  · have hph3 : afterInit s3 = true := by
      rw [e3, h2, e1]; exact hph
    simp [handle, knownCmd, phaseAllowed, payloadMatches, effect, hph3, hget,
      RETRO_ENVIRONMENT_SET_PIXEL_FORMAT, RETRO_ENVIRONMENT_GET_VARIABLE,
      RETRO_ENVIRONMENT_SET_VARIABLES, RETRO_ENVIRONMENT_GET_VARIABLE_UPDATE,
      RETRO_ENVIRONMENT_SET_GEOMETRY]

/-- Witness for C5: key "c_region", default "ntsc", host override "pal",
re-registration with default "auto"; GET_VARIABLE still answers "pal". -/
theorem variable_registration_idempotent_witness :
    lookupVal sessionAfterReRegistration.registry.defaults "c_region"
      = some "auto" ∧
    (handle sessionAfterReRegistration RETRO_ENVIRONMENT_GET_VARIABLE
      (.variableKey "c_region")).out = some "pal" := by
  have h := variable_registration_idempotent sessionDuringInit
    sessionAfterFirstRegistration sessionAfterHostOverride
    sessionAfterReRegistration "c_region" "ntsc" "auto" "pal"
    rfl rfl rfl rfl rfl
  exact ⟨h.1, h.2.2.2⟩

/-- C6: within one frame trace, exactly one input-poll event occurs and it is
the very first event (hence it precedes every input-state query), and two
queries of the frame with the same (port, device, index, id) arguments
receive identical results. -/
theorem input_poll_once_and_consistent (input : InputQuery → Int)
    (qs : List InputQuery) (q : InputQuery) (r1 r2 : Int)
    (h1 : FrameEvent.query q r1 ∈ frameTrace input qs)
    (h2 : FrameEvent.query q r2 ∈ frameTrace input qs) :
    (frameTrace input qs).countP isPoll = 1 ∧
    (frameTrace input qs).head? = some FrameEvent.poll ∧
    r1 = r2 := by
  refine ⟨?_, rfl, ?_⟩
  · have hz : (qs.map (fun a => FrameEvent.query a (input a))).countP isPoll = 0 := by
      rw [List.countP_eq_zero]
      intro e he
      obtain ⟨a, _, rfl⟩ := List.mem_map.1 he
      simp [isPoll]
    simp [frameTrace, List.countP_cons, isPoll, hz]
  · simp [frameTrace, List.mem_cons, List.mem_map] at h1 h2
    obtain ⟨a1, -, ha1, hr1⟩ := h1
    obtain ⟨a2, -, ha2, hr2⟩ := h2
    rw [← hr1, ← hr2, ha1, ha2]

/-- Witness for C6: a concrete frame with one query answered 7 twice. -/
theorem input_poll_once_and_consistent_witness :
    (frameTrace (fun _ => 7) [⟨0, 1, 0, 4⟩]).countP isPoll = 1 ∧
    (frameTrace (fun _ => 7) [⟨0, 1, 0, 4⟩]).head? = some FrameEvent.poll ∧
    (7 : Int) = 7 :=
  input_poll_once_and_consistent (fun _ => 7) [⟨0, 1, 0, 4⟩] ⟨0, 1, 0, 4⟩ 7 7
    (by simp [frameTrace]) (by simp [frameTrace])

end Eblitui
